import Mathlib

/-!
Shallow embedding of `src/advanced_mcp_exercise/frontend/src/main.jsx`.

The module body performs, in order:
1. `const stytch = createStytchUIClient('public-token-test-ae71e9a8-114f-4d46-a4cf-9ac23b2622da')`
2. `createRoot(document.getElementById('root')).render(<StytchProvider stytch={stytch}><App/></StytchProvider>)`

We model the DOM document, the Stytch client, the React element trees this
module can build, and the module body as a function from an initial document
to an outcome: a trace of observable effects, the resulting document, and an
optional error (thrown when `createRoot` receives `null`).
-/

/-- A Stytch UI client object, as produced by `createStytchUIClient`. -/
structure StytchClient where
  publicToken : String
deriving DecidableEq, Repr

/-- Embedding of `createStytchUIClient` from `@stytch/react/ui`: builds a
client from its single argument, the public token string. -/
def createStytchUIClient (token : String) : StytchClient :=
  { publicToken := token }

/-- The fixed public token literal at line 9 of `main.jsx`. -/
def stytchPublicToken : String :=
  "public-token-test-ae71e9a8-114f-4d46-a4cf-9ac23b2622da"

/-- React element trees constructible from the components in scope in
`main.jsx`: `App`, `StrictMode` (imported at line 1) and `StytchProvider`. -/
inductive ReactElement where
  | app : ReactElement
  | strictMode (child : ReactElement) : ReactElement
  | stytchProvider (stytch : StytchClient) (child : ReactElement) : ReactElement
deriving DecidableEq, Repr

/-- Whether a `StrictMode` node occurs anywhere in the tree. -/
def ReactElement.containsStrictMode : ReactElement → Bool
  | .app => false
  | .strictMode _ => true
  | .stytchProvider _ child => child.containsStrictMode

/-- The DOM document: the ids of the elements it contains, and the trees that
React has mounted into elements (newest first). -/
structure DOMDocument where
  elementIds : List String
  mounted : List (String × ReactElement)
deriving DecidableEq, Repr

/-- The mount-point identifier used at line 12: `'root'`. -/
def mountPointId : String := "root"

/-- Embedding of `document.getElementById`: a handle when an element with the
id exists in the document, `none` (JavaScript `null`) otherwise. -/
def getElementById (doc : DOMDocument) (id : String) : Option String :=
  if doc.elementIds.contains id then some id else none

/-- Errors thrown by the platform or libraries during the bootstrap. -/
inductive JsError where
  | targetContainerNotDOMElement : JsError
deriving DecidableEq, Repr

/-- A React root attached to a container element. -/
structure ReactRoot where
  containerId : String
deriving DecidableEq, Repr

/-- Embedding of `createRoot` from `react-dom/client`: succeeds on an element
handle, throws on `null`. -/
def createRoot (container : Option String) : Except JsError ReactRoot :=
  match container with
  | some id => Except.ok { containerId := id }
  | none => Except.error JsError.targetContainerNotDOMElement

/-- Render a tree into the root container, recording it in the document. -/
def ReactRoot.renderInto (root : ReactRoot) (tree : ReactElement)
    (doc : DOMDocument) : DOMDocument :=
  { doc with mounted := (root.containerId, tree) :: doc.mounted }

/-- Observable effects of the module body. -/
inductive Effect where
  | createClient (token : String) : Effect
  | renderInto (targetId : String) (tree : ReactElement) : Effect
deriving DecidableEq, Repr

/-- Whether an effect is a render. -/
def Effect.isRender : Effect → Bool
  | .renderInto _ _ => true
  | _ => false

/-- Whether an effect is a client construction. -/
def Effect.isCreateClient : Effect → Bool
  | .createClient _ => true
  | _ => false

/-- The outcome of running the module body: the trace of effects in the order
performed, the document afterwards, and the uncaught error, if any. -/
structure BootstrapOutcome where
  trace : List Effect
  doc : DOMDocument
  error : Option JsError
deriving DecidableEq, Repr

/-- The element passed to `render` at lines 13 to 15:
`<StytchProvider stytch={stytch}><App /></StytchProvider>`. -/
def rootTree (stytch : StytchClient) : ReactElement :=
  ReactElement.stytchProvider stytch ReactElement.app

/-- Shallow embedding of the module body of `main.jsx`, run against an initial
document. Line 9 constructs the client; line 12 looks up the mount point and
creates the root, and the render happens when that succeeds. An error from
`createRoot` propagates uncaught. -/
def mainModule (doc : DOMDocument) : BootstrapOutcome :=
  let stytch := createStytchUIClient stytchPublicToken
  let trace0 := [Effect.createClient stytchPublicToken]
  match createRoot (getElementById doc mountPointId) with
  | Except.error e => { trace := trace0, doc := doc, error := some e }
  | Except.ok root =>
      let tree := rootTree stytch
      { trace := trace0 ++ [Effect.renderInto root.containerId tree]
        doc := root.renderInto tree doc
        error := none }

/-- A process environment: command-line arguments, environment variables and
a file system, none of which `main.jsx` mentions. -/
structure ProcessEnv where
  cliArgs : List String
  envVars : List (String × String)
  files : List (String × String)
deriving DecidableEq, Repr

/-- The module body run inside a full process environment. The source reads
no command-line flag, file or environment variable, so the translation makes
no use of the environment argument. -/
def mainModuleInEnv (env : ProcessEnv) (doc : DOMDocument) : BootstrapOutcome :=
  mainModule doc

/-- The error component of an `Except`, for stating error propagation. -/
def errorPart : Except JsError ReactRoot → Option JsError
  | Except.error e => some e
  | Except.ok _ => none

/-- A document that contains the mount point, for witnesses. -/
def docWithRoot : DOMDocument :=
  { elementIds := ["root"], mounted := [] }

/-- A document lacking the mount point, for witnesses. -/
def docNoRoot : DOMDocument :=
  { elementIds := ["app", "footer"], mounted := [] }

/-- C1: for every document containing an element with the mount-point
identifier, the bootstrap performs exactly one render, into that element,
of the application root wrapped in the authentication provider, and the
document changes only by that one mounted tree; no error occurs. -/
theorem mainModule_renders_once (doc : DOMDocument)
    (h : doc.elementIds.contains mountPointId = true) :
    (mainModule doc).error = none ∧
    (mainModule doc).trace.filter Effect.isRender =
      [Effect.renderInto mountPointId
        (rootTree (createStytchUIClient stytchPublicToken))] ∧
    (mainModule doc).doc.elementIds = doc.elementIds ∧
    (mainModule doc).doc.mounted =
      (mountPointId, rootTree (createStytchUIClient stytchPublicToken))
        :: doc.mounted := by
  have hm : mountPointId ∈ doc.elementIds := by simpa using h
  simp [mainModule, getElementById, hm, createRoot, ReactRoot.renderInto,
    Effect.isRender, List.filter]

/-- Witness for C1 on a concrete document containing the mount point. -/
theorem mainModule_renders_once_witness :
    (mainModule docWithRoot).error = none ∧
    (mainModule docWithRoot).trace.filter Effect.isRender =
      [Effect.renderInto mountPointId
        (rootTree (createStytchUIClient stytchPublicToken))] ∧
    (mainModule docWithRoot).doc.elementIds = docWithRoot.elementIds ∧
    (mainModule docWithRoot).doc.mounted =
      (mountPointId, rootTree (createStytchUIClient stytchPublicToken))
        :: docWithRoot.mounted :=
  mainModule_renders_once docWithRoot (by decide)

/-- C2: on a document containing the mount point, the trace is exactly the
client construction from the fixed public token followed by the render of
the provider-wrapped root, in that order. -/
theorem mainModule_client_then_render (doc : DOMDocument)
    (h : doc.elementIds.contains mountPointId = true) :
    (mainModule doc).trace =
      [Effect.createClient stytchPublicToken,
       Effect.renderInto mountPointId
         (rootTree (createStytchUIClient stytchPublicToken))] := by
  have hm : mountPointId ∈ doc.elementIds := by simpa using h
  simp [mainModule, getElementById, hm, createRoot]

/-- Witness for C2 on a concrete document containing the mount point. -/
theorem mainModule_client_then_render_witness :
    (mainModule docWithRoot).trace =
      [Effect.createClient stytchPublicToken,
       Effect.renderInto mountPointId
         (rootTree (createStytchUIClient stytchPublicToken))] :=
  mainModule_client_then_render docWithRoot (by decide)

/-- C3: acquiring the mount-point handle succeeds exactly when the document
contains an element with the mount-point identifier, and the bootstrap as a
whole errors exactly when it does not; no other condition makes the
acquisition step fail. -/
theorem mountPoint_acquisition_fails_iff_absent (doc : DOMDocument) :
    (getElementById doc mountPointId).isSome
      = doc.elementIds.contains mountPointId ∧
    (mainModule doc).error.isSome = !doc.elementIds.contains mountPointId := by
  by_cases hm : mountPointId ∈ doc.elementIds
  · simp [mainModule, getElementById, hm, createRoot]
  · simp [mainModule, getElementById, hm, createRoot]

/-- C4: the bootstrap constructs exactly one client, from exactly one
configuration value, the fixed public token literal of line 9, irrespective
of the document. -/
theorem client_single_constant_config (doc : DOMDocument) :
    (mainModule doc).trace.filter Effect.isCreateClient =
      [Effect.createClient stytchPublicToken] ∧
    stytchPublicToken =
      "public-token-test-ae71e9a8-114f-4d46-a4cf-9ac23b2622da" ∧
    createStytchUIClient stytchPublicToken =
      { publicToken := stytchPublicToken } := by
  by_cases hm : mountPointId ∈ doc.elementIds
  · simp [mainModule, getElementById, hm, createRoot, Effect.isCreateClient,
      List.filter, createStytchUIClient, stytchPublicToken]
  · simp [mainModule, getElementById, hm, createRoot, Effect.isCreateClient,
      List.filter, createStytchUIClient, stytchPublicToken]

/-- C5: the bootstrap has no observable effects besides the client
construction and the one-time render: the trace holds nothing else, the set
of document elements is untouched, and the mounted content either is
unchanged or gains only the single root render. -/
theorem mainModule_no_other_effects (doc : DOMDocument) :
    (mainModule doc).trace.filter
      (fun e => !e.isRender && !e.isCreateClient) = [] ∧
    (mainModule doc).doc.elementIds = doc.elementIds ∧
    ((mainModule doc).doc.mounted = doc.mounted ∨
     (mainModule doc).doc.mounted =
       (mountPointId, rootTree (createStytchUIClient stytchPublicToken))
         :: doc.mounted) := by
  by_cases hm : mountPointId ∈ doc.elementIds
  · simp [mainModule, getElementById, hm, createRoot, ReactRoot.renderInto,
      Effect.isRender, Effect.isCreateClient, List.filter]
  · simp [mainModule, getElementById, hm, createRoot,
      Effect.isRender, Effect.isCreateClient, List.filter]

/-- C6: the bootstrap is a single straight-line run: its trace is
duplicate-free and is one of exactly two fixed shapes, so no operation is
retried or re-invoked. -/
theorem mainModule_straight_line (doc : DOMDocument) :
    (mainModule doc).trace.Nodup ∧
    ((mainModule doc).trace = [Effect.createClient stytchPublicToken] ∨
     (mainModule doc).trace =
       [Effect.createClient stytchPublicToken,
        Effect.renderInto mountPointId
          (rootTree (createStytchUIClient stytchPublicToken))]) := by
  by_cases hm : mountPointId ∈ doc.elementIds
  · simp [mainModule, getElementById, hm, createRoot]
  · simp [mainModule, getElementById, hm, createRoot]

/-- C7: the bootstrap catches nothing: its error component is exactly the
error of the underlying `createRoot` step, passed through unchanged. -/
theorem mainModule_propagates_errors (doc : DOMDocument) :
    (mainModule doc).error =
      errorPart (createRoot (getElementById doc mountPointId)) := by
  by_cases hm : mountPointId ∈ doc.elementIds
  · simp [mainModule, getElementById, hm, createRoot, errorPart]
  · simp [mainModule, getElementById, hm, createRoot, errorPart]

/-- C8: the bootstrap is insensitive to the process environment: two runs
over the same document under any two environments give identical outcomes. -/
theorem mainModule_env_independent (e1 e2 : ProcessEnv) (doc : DOMDocument) :
    mainModuleInEnv e1 doc = mainModuleInEnv e2 doc := by
  simp [mainModuleInEnv]

/-- C9: every tree the bootstrap renders contains no `StrictMode` node, and
the element built for the render has the authentication provider outermost,
directly containing the application root. -/
theorem rendered_tree_no_strictMode (doc : DOMDocument) :
    ((mainModule doc).trace.all fun e =>
      match e with
      | Effect.renderInto _ t => !t.containsStrictMode
      | _ => true) = true ∧
    rootTree (createStytchUIClient stytchPublicToken) =
      ReactElement.stytchProvider (createStytchUIClient stytchPublicToken)
        ReactElement.app := by
  by_cases hm : mountPointId ∈ doc.elementIds
  · simp [mainModule, getElementById, hm, createRoot, rootTree,
      ReactElement.containsStrictMode, List.all]
  · simp [mainModule, getElementById, hm, createRoot, rootTree, List.all]

/-- C10: on a document lacking the mount point, the bootstrap fails at the
root-creation step, yet its trace already holds the client construction:
the failed run is not free of the client-creation effect. -/
theorem client_created_before_mount_failure (doc : DOMDocument)
    (h : doc.elementIds.contains mountPointId = false) :
    (mainModule doc).error = some JsError.targetContainerNotDOMElement ∧
    (mainModule doc).trace = [Effect.createClient stytchPublicToken] := by
  have hm : mountPointId ∉ doc.elementIds := by simpa using h
  simp [mainModule, getElementById, hm, createRoot]

/-- Witness for C10 on a concrete document lacking the mount point. -/
theorem client_created_before_mount_failure_witness :
    (mainModule docNoRoot).error = some JsError.targetContainerNotDOMElement ∧
    (mainModule docNoRoot).trace = [Effect.createClient stytchPublicToken] :=
  client_created_before_mount_failure docNoRoot (by decide)
